import Mathlib

/-!
Verification of the geometric core of the demomaps2 repository.

The core under verification is the Java class GeoUtils embedded in the
repository README (src/README.md, lines 278-375): a haversine great-circle
distance function and a circle-membership filter over arrays of geographic
points.  The Lean definitions below are a shallow embedding of that code:
Java doubles are modelled as real numbers, the nullable Point array as
Option (List (Option Point)), and the nullable GeoOptions parameter as
Option GeoOptions.  Math.atan2 is modelled by an explicit case definition
matching the Java library specification on finite inputs.
-/

open Classical Real

noncomputable section

namespace GeoUtils

/-- Geographic point with longitude and latitude in degrees, mirroring the
nested Java class GeoUtils.Point (fields lon, lat, constructor order
(lon, lat)). -/
structure Point where
  lon : ℝ
  lat : ℝ

/-- Options record mirroring the nested Java class GeoUtils.GeoOptions with
its single field earthRadius (sphere radius in meters). -/
structure GeoOptions where
  earthRadius : ℝ

/-- Model of Java Math.atan2(y, x) on finite inputs: the angle of the
vector (x, y), in (-pi, pi], computed by the usual case split on the
quadrant. -/
def atan2 (y x : ℝ) : ℝ :=
  if 0 < x then Real.arctan (y / x)
  else if x < 0 then
    (if 0 ≤ y then Real.arctan (y / x) + Real.pi
     else Real.arctan (y / x) - Real.pi)
  else if 0 < y then Real.pi / 2
  else if y < 0 then -(Real.pi / 2)
  else 0

/-- Model of Java Math.toRadians: degrees to radians. -/
def toRadians (deg : ℝ) : ℝ :=
  deg / 180 * Real.pi

/-- Shallow embedding of GeoUtils.haversineDistance (src/README.md lines
346-362): convert both points to radians, form the haversine term a, the
central angle c = 2 * atan2(sqrt a, sqrt (1 - a)), and scale by the sphere
radius. -/
def haversineDistance (lat1 lon1 lat2 lon2 earthRadius : ℝ) : ℝ :=
  let lat1Rad := toRadians lat1
  let lon1Rad := toRadians lon1
  let lat2Rad := toRadians lat2
  let lon2Rad := toRadians lon2
  let dLat := lat2Rad - lat1Rad
  let dLon := lon2Rad - lon1Rad
  let a := Real.sin (dLat / 2) * Real.sin (dLat / 2) +
      Real.cos lat1Rad * Real.cos lat2Rad * Real.sin (dLon / 2) * Real.sin (dLon / 2)
  let c := 2 * atan2 (Real.sqrt a) (Real.sqrt (1 - a))
  earthRadius * c

/-- The membership test applied to each non-null point inside the loop of
GeoUtils.findPointsInCircle (src/README.md lines 328-331): the haversine
distance from the circle center to the point is at most the radius. -/
def circleContainsGeodesic (point : Point) (centerLon centerLat radius earthRadius : ℝ) : Prop :=
  haversineDistance centerLat centerLon point.lat point.lon earthRadius ≤ radius

/-- The accumulation loop of GeoUtils.findPointsInCircle (src/README.md
lines 321-332): walk the array in order, skip null entries, and keep each
point whose distance to the center is at most the radius. -/
def collectPoints (centerLon centerLat radius earthRadius : ℝ) :
    List (Option Point) → List Point
  | [] => []
  | none :: rest => collectPoints centerLon centerLat radius earthRadius rest
  | some point :: rest =>
      if circleContainsGeodesic point centerLon centerLat radius earthRadius then
        point :: collectPoints centerLon centerLat radius earthRadius rest
      else
        collectPoints centerLon centerLat radius earthRadius rest

/-- The sphere-radius resolution ternary of GeoUtils.findPointsInCircle
(src/README.md line 314): use options.earthRadius when options is non-null
and the field is strictly positive, otherwise the default 6371000 m. -/
def resolveEarthRadius (options : Option GeoOptions) : ℝ :=
  match options with
  | some o => if o.earthRadius > 0 then o.earthRadius else 6371000
  | none => 6371000

/-- Shallow embedding of GeoUtils.findPointsInCircle (src/README.md lines
313-335): resolve the sphere radius, return the empty list on a null
points array, otherwise run the accumulation loop. -/
def findPointsInCircle (points : Option (List (Option Point)))
    (centerLon centerLat radius : ℝ) (options : Option GeoOptions) : List Point :=
  let earthRadius := resolveEarthRadius options
  match points with
  | none => []
  | some ps => collectPoints centerLon centerLat radius earthRadius ps

/-- Great-circle distance written exactly as the specification states it
(spec sections 4.1 and 8): for geographic points a and b in degrees and a
sphere radius R, first convert to radians, form
h = sin^2(dLat/2) + cos(lat1) * cos(lat2) * sin^2(dLon/2), and return
R * 2 * atan2(sqrt h, sqrt (1 - h)).  This definition follows the words of
the specification and is compared against the source embedding
haversineDistance in the claim C1 theorem. -/
def haversineDistanceSpec (a b : Point) (sphereRadiusMeters : ℝ) : ℝ :=
  let lat1 := toRadians a.lat
  let lat2 := toRadians b.lat
  let dLat := lat2 - lat1
  let dLon := toRadians b.lon - toRadians a.lon
  let h := Real.sin (dLat / 2) ^ 2 +
      Real.cos lat1 * Real.cos lat2 * Real.sin (dLon / 2) ^ 2
  sphereRadiusMeters * (2 * atan2 (Real.sqrt h) (Real.sqrt (1 - h)))

/-- Unfolding equation: a non-null points array runs the loop with the
resolved sphere radius. -/
theorem findPointsInCircle_some (ps : List (Option Point))
    (centerLon centerLat radius : ℝ) (options : Option GeoOptions) :
    findPointsInCircle (some ps) centerLon centerLat radius options =
      collectPoints centerLon centerLat radius (resolveEarthRadius options) ps := rfl

/-- Unfolding equation: a null points array yields the empty list. -/
theorem findPointsInCircle_none (centerLon centerLat radius : ℝ)
    (options : Option GeoOptions) :
    findPointsInCircle none centerLon centerLat radius options = [] := rfl

/-- The resolved sphere radius is always strictly positive. -/
theorem resolveEarthRadius_pos (options : Option GeoOptions) :
    0 < resolveEarthRadius options := by
  cases options with
  | none => norm_num [resolveEarthRadius]
  | some o =>
      by_cases h : o.earthRadius > 0
      · simp [resolveEarthRadius, h]
      · simp only [resolveEarthRadius, h, if_false]
        norm_num

/-- atan2 is nonnegative on the closed upper-right quadrant. -/
theorem atan2_nonneg {y x : ℝ} (hy : 0 ≤ y) (hx : 0 ≤ x) : 0 ≤ atan2 y x := by
  unfold atan2
  by_cases hxp : 0 < x
  · rw [if_pos hxp]
    have : (0 : ℝ) ≤ y / x := div_nonneg hy hx
    calc (0 : ℝ) = Real.arctan 0 := Real.arctan_zero.symm
      _ ≤ Real.arctan (y / x) := Real.arctan_strictMono.monotone this
  · have hx0 : x = 0 := le_antisymm (not_lt.mp hxp) hx
    rw [if_neg hxp, if_neg (by rw [hx0]; exact lt_irrefl 0)]
    by_cases hyp : 0 < y
    · rw [if_pos hyp]
      linarith [Real.pi_pos]
    · rw [if_neg hyp, if_neg (not_lt.mpr hy)]

/-- atan2 is strictly positive when y is strictly positive and x is
nonnegative. -/
theorem atan2_pos {y x : ℝ} (hy : 0 < y) (hx : 0 ≤ x) : 0 < atan2 y x := by
  unfold atan2
  by_cases hxp : 0 < x
  · rw [if_pos hxp]
    have : (0 : ℝ) < y / x := div_pos hy hxp
    calc (0 : ℝ) = Real.arctan 0 := Real.arctan_zero.symm
      _ < Real.arctan (y / x) := Real.arctan_strictMono this
  · have hx0 : x = 0 := le_antisymm (not_lt.mp hxp) hx
    rw [if_neg hxp, if_neg (by rw [hx0]; exact lt_irrefl 0), if_pos hy]
    linarith [Real.pi_pos]

/-- Evaluation: atan2 0 1 = 0. -/
theorem atan2_zero_one : atan2 0 1 = 0 := by
  unfold atan2
  rw [if_pos (by norm_num : (0:ℝ) < 1)]
  simp [Real.arctan_zero]

/-- Haversine distance from a point to itself is exactly zero. -/
theorem haversineDistance_self (lat lon earthRadius : ℝ) :
    haversineDistance lat lon lat lon earthRadius = 0 := by
  simp [haversineDistance, atan2_zero_one]

/-- Haversine distance is nonnegative whenever the sphere radius is. -/
theorem haversineDistance_nonneg (lat1 lon1 lat2 lon2 earthRadius : ℝ)
    (hR : 0 ≤ earthRadius) :
    0 ≤ haversineDistance lat1 lon1 lat2 lon2 earthRadius := by
  simp only [haversineDistance]
  refine mul_nonneg hR (mul_nonneg (by norm_num) ?_)
  exact atan2_nonneg (Real.sqrt_nonneg _) (Real.sqrt_nonneg _)

/-- Haversine distance is strictly positive when the sphere radius is
positive, the latitude half-angle has nonzero sine, and the product of the
latitude cosines is nonnegative. -/
theorem haversineDistance_pos {lat1 lon1 lat2 lon2 earthRadius : ℝ}
    (hR : 0 < earthRadius)
    (hs : Real.sin ((toRadians lat2 - toRadians lat1) / 2) ≠ 0)
    (hc : 0 ≤ Real.cos (toRadians lat1) * Real.cos (toRadians lat2)) :
    0 < haversineDistance lat1 lon1 lat2 lon2 earthRadius := by
  simp only [haversineDistance]
  refine mul_pos hR (mul_pos (by norm_num) ?_)
  refine atan2_pos ?_ (Real.sqrt_nonneg _)
  refine Real.sqrt_pos.mpr ?_
  have h1 : 0 < Real.sin ((toRadians lat2 - toRadians lat1) / 2) *
      Real.sin ((toRadians lat2 - toRadians lat1) / 2) := mul_self_pos.mpr hs
  have h2 : 0 ≤ Real.cos (toRadians lat1) * Real.cos (toRadians lat2) *
      (Real.sin ((toRadians lon2 - toRadians lon1) / 2) *
        Real.sin ((toRadians lon2 - toRadians lon1) / 2)) :=
    mul_nonneg hc (mul_self_nonneg _)
  nlinarith

/-- The distance from the origin to the point at longitude 0.1 and
latitude 0.1 degrees is strictly positive on every sphere of positive
radius. -/
theorem haversineDistance_origin_tenth_pos {earthRadius : ℝ} (hR : 0 < earthRadius) :
    0 < haversineDistance 0 0 0.1 0.1 earthRadius := by
  have hπ := Real.pi_pos
  refine haversineDistance_pos hR ?_ ?_
  · have h0 : toRadians (0 : ℝ) = 0 := by simp [toRadians]
    have h1 : toRadians (0.1 : ℝ) = 0.1 / 180 * Real.pi := rfl
    rw [h1, h0, sub_zero]
    refine ne_of_gt (Real.sin_pos_of_pos_of_lt_pi ?_ ?_)
    · nlinarith
    · nlinarith
  · have h0 : toRadians (0 : ℝ) = 0 := by simp [toRadians]
    have h1 : toRadians (0.1 : ℝ) = 0.1 / 180 * Real.pi := rfl
    rw [h0, h1, Real.cos_zero, one_mul]
    refine Real.cos_nonneg_of_mem_Icc ⟨?_, ?_⟩
    · nlinarith
    · nlinarith

/-- With a strictly negative radius no point can pass the membership test,
so the loop returns the empty list. -/
theorem findPointsInCircle_neg_radius_aux (ps : List (Option Point))
    (centerLon centerLat radius : ℝ) (options : Option GeoOptions)
    (h : radius < 0) :
    findPointsInCircle (some ps) centerLon centerLat radius options = [] := by
  rw [findPointsInCircle_some]
  induction ps with
  | nil => rfl
  | cons op rest ih =>
    cases op with
    | none => simpa [collectPoints] using ih
    | some p =>
        have hnot : ¬ circleContainsGeodesic p centerLon centerLat radius
            (resolveEarthRadius options) := by
          unfold circleContainsGeodesic
          push_neg
          calc radius < 0 := h
            _ ≤ haversineDistance centerLat centerLon p.lat p.lon
                  (resolveEarthRadius options) :=
              haversineDistance_nonneg _ _ _ _ _ (le_of_lt (resolveEarthRadius_pos options))
        simp only [collectPoints, if_neg hnot]
        exact ih

/-- C1: haversineDistance computes exactly the great-circle distance the
specification states: degrees are first converted to radians, the
haversine term h is formed, and the result is
sphereRadiusMeters * 2 * atan2(sqrt h, sqrt (1 - h)). -/
theorem c1_haversine_matches_spec (a b : Point) (sphereRadiusMeters : ℝ) :
    haversineDistance a.lat a.lon b.lat b.lon sphereRadiusMeters =
      haversineDistanceSpec a b sphereRadiusMeters := by
  simp only [haversineDistance, haversineDistanceSpec]
  ring_nf

/-- C2: on a non-null points array, findPointsInCircle is a stable filter:
it returns exactly the non-null entries whose haversine distance to the
circle center is at most the radius, in input order, keeping duplicates
and silently skipping null entries. -/
theorem c2_stable_filter (ps : List (Option Point)) (centerLon centerLat radius : ℝ)
    (options : Option GeoOptions) :
    findPointsInCircle (some ps) centerLon centerLat radius options =
      ps.filterMap (fun entry => match entry with
        | none => none
        | some p =>
            if haversineDistance centerLat centerLon p.lat p.lon
                (resolveEarthRadius options) ≤ radius then some p else none) := by
  rw [findPointsInCircle_some]
  induction ps with
  | nil => rfl
  | cons op rest ih =>
    cases op with
    | none => simp [collectPoints, List.filterMap_cons, ih]
    | some p =>
        by_cases h : haversineDistance centerLat centerLon p.lat p.lon
            (resolveEarthRadius options) ≤ radius
        · simp [collectPoints, circleContainsGeodesic, List.filterMap_cons, h, ih]
        · simp [collectPoints, circleContainsGeodesic, List.filterMap_cons, h, ih]

/-- C3 counterexample: calling findPointsInCircle with a strictly negative
radius does not fail with an InvalidGeometry error; the call returns the
ordinary empty list, so no failure surfaces to the caller. -/
theorem c3_counterexample_negative_radius_no_failure :
    findPointsInCircle (some [some ⟨0, 0⟩]) 0 0 (-1) (some ⟨6371000⟩) = [] :=
  findPointsInCircle_neg_radius_aux [some ⟨0, 0⟩] 0 0 (-1) (some ⟨6371000⟩) (by norm_num)

/-- C3 amended: a circle with strictly negative radiusMeters is not
rejected; findPointsInCircle performs no shape validation and simply
returns the empty list, signalling no error. -/
theorem c3_amended_negative_radius_no_error (ps : List (Option Point))
    (centerLon centerLat radius : ℝ) (options : Option GeoOptions) (h : radius < 0) :
    findPointsInCircle (some ps) centerLon centerLat radius options = [] :=
  findPointsInCircle_neg_radius_aux ps centerLon centerLat radius options h

/-- Witness for the amended C3 theorem at a concrete negative radius. -/
theorem c3_amended_witness :
    findPointsInCircle (some []) 0 0 (-5) (some ⟨6371000⟩) = [] :=
  c3_amended_negative_radius_no_error [] 0 0 (-5) (some ⟨6371000⟩) (by norm_num)

/-- C4: a zero-radius circle is valid input and matches exactly the points
coincident with its center: on the points (0,0) and (0.1,0.1) with center
(0,0) and radius 0, findPointsInCircle returns only the center point. -/
theorem c4_zero_radius (options : Option GeoOptions) :
    findPointsInCircle (some [some ⟨0, 0⟩, some ⟨0.1, 0.1⟩]) 0 0 0 options =
      [⟨0, 0⟩] := by
  rw [findPointsInCircle_some]
  have h1 : circleContainsGeodesic ⟨0, 0⟩ 0 0 0 (resolveEarthRadius options) :=
    le_of_eq (haversineDistance_self 0 0 (resolveEarthRadius options))
  have h2 : ¬ circleContainsGeodesic ⟨0.1, 0.1⟩ 0 0 0 (resolveEarthRadius options) := by
    unfold circleContainsGeodesic
    push_neg
    exact haversineDistance_origin_tenth_pos (resolveEarthRadius_pos options)
  simp only [collectPoints, if_pos h1, if_neg h2]

/-- C5: circle containment is boundary-inclusive: a singleton query keeps
the point exactly when its haversine distance to the center is at most the
radius, and in particular a point at distance exactly the radius is kept. -/
theorem c5_boundary_inclusive (p : Point) (centerLon centerLat radius : ℝ)
    (options : Option GeoOptions) :
    (findPointsInCircle (some [some p]) centerLon centerLat radius options = [p] ↔
      haversineDistance centerLat centerLon p.lat p.lon
        (resolveEarthRadius options) ≤ radius) ∧
    (haversineDistance centerLat centerLon p.lat p.lon
        (resolveEarthRadius options) = radius →
      findPointsInCircle (some [some p]) centerLon centerLat radius options = [p]) := by
  constructor
  · constructor
    · intro hres
      by_cases h : haversineDistance centerLat centerLon p.lat p.lon
          (resolveEarthRadius options) ≤ radius
      · exact h
      · rw [findPointsInCircle_some] at hres
        simp [collectPoints, circleContainsGeodesic, h] at hres
    · intro h
      rw [findPointsInCircle_some]
      simp [collectPoints, circleContainsGeodesic, h]
  · intro h
    rw [findPointsInCircle_some]
    simp [collectPoints, circleContainsGeodesic, le_of_eq h]

/-- Witness for C5 at a point lying exactly on the boundary: the center
itself at radius zero. -/
theorem c5_boundary_witness :
    findPointsInCircle (some [some ⟨0, 0⟩]) 0 0 0 none = [⟨0, 0⟩] :=
  (c5_boundary_inclusive ⟨0, 0⟩ 0 0 0 none).2
    (haversineDistance_self 0 0 (resolveEarthRadius none))

/-- C6: a null points array and an empty points array both yield the empty
list, for every circle and every options value, with no error signalled. -/
theorem c6_null_or_empty (centerLon centerLat radius : ℝ) (options : Option GeoOptions) :
    findPointsInCircle none centerLon centerLat radius options = [] ∧
    findPointsInCircle (some []) centerLon centerLat radius options = [] :=
  ⟨rfl, rfl⟩

/-- C7: findPointsInCircle resolves the sphere radius exactly as stated:
a present options value with strictly positive earthRadius is used, and in
every other case (options null, or earthRadius not positive) the default
6371000 m is used. -/
theorem c7_sphere_radius_resolution (ps : List (Option Point))
    (centerLon centerLat radius : ℝ) :
    (∀ o : GeoOptions, 0 < o.earthRadius →
        findPointsInCircle (some ps) centerLon centerLat radius (some o) =
          collectPoints centerLon centerLat radius o.earthRadius ps) ∧
    (∀ o : GeoOptions, o.earthRadius ≤ 0 →
        findPointsInCircle (some ps) centerLon centerLat radius (some o) =
          collectPoints centerLon centerLat radius 6371000 ps) ∧
    findPointsInCircle (some ps) centerLon centerLat radius none =
      collectPoints centerLon centerLat radius 6371000 ps := by
  refine ⟨fun o ho => ?_, fun o ho => ?_, rfl⟩
  · rw [findPointsInCircle_some]
    congr 1
    simp [resolveEarthRadius, ho]
  · have h' : ¬ o.earthRadius > 0 := not_lt.mpr ho
    rw [findPointsInCircle_some]
    congr 1
    simp [resolveEarthRadius, h']

/-- Witness for C7 at concrete options values: a positive custom radius, a
nonpositive one, and absent options. -/
theorem c7_sphere_radius_witness :
    findPointsInCircle (some []) 0 0 0 (some ⟨6378137⟩) = collectPoints 0 0 0 6378137 [] ∧
    findPointsInCircle (some []) 0 0 0 (some ⟨-1⟩) = collectPoints 0 0 0 6371000 [] ∧
    findPointsInCircle (some []) 0 0 0 none = collectPoints 0 0 0 6371000 [] :=
  ⟨(c7_sphere_radius_resolution [] 0 0 0).1 ⟨6378137⟩ (by show (0:ℝ) < 6378137; norm_num),
   (c7_sphere_radius_resolution [] 0 0 0).2.1 ⟨-1⟩ (by show (-1:ℝ) ≤ 0; norm_num),
   (c7_sphere_radius_resolution [] 0 0 0).2.2⟩

/-- C8: haversine distance is linear in the sphere radius: the distance at
sphere radius R equals the distance at sphere radius 1 multiplied by R. -/
theorem c8_scaling (a b : Point) (sphereRadiusMeters : ℝ) :
    haversineDistance a.lat a.lon b.lat b.lon sphereRadiusMeters =
      haversineDistance a.lat a.lon b.lat b.lon 1 * sphereRadiusMeters := by
  simp only [haversineDistance]
  ring

/-- C9: circle containment is monotonic in the radius: a point inside the
circle of radius r1 stays inside every circle with the same center, the
same sphere radius, and a radius r2 at least r1. -/
theorem c9_monotone_radius (p : Point) (centerLon centerLat r1 r2 earthRadius : ℝ)
    (h1 : circleContainsGeodesic p centerLon centerLat r1 earthRadius) (h2 : r1 ≤ r2) :
    circleContainsGeodesic p centerLon centerLat r2 earthRadius :=
  le_trans h1 h2

/-- Witness for C9: the center point, contained at radius 0, stays
contained at radius 1. -/
theorem c9_monotone_witness :
    circleContainsGeodesic ⟨0, 0⟩ 0 0 1 6371000 :=
  c9_monotone_radius ⟨0, 0⟩ 0 0 0 1 6371000
    (le_of_eq (haversineDistance_self 0 0 6371000)) (by norm_num)

/-- C10: haversine distance is nonnegative for every nonnegative sphere
radius, and consequently findPointsInCircle with a strictly negative
radius returns the empty list without signalling any error. -/
theorem c10_negative_radius_empty :
    (∀ lat1 lon1 lat2 lon2 earthRadius : ℝ, 0 ≤ earthRadius →
        0 ≤ haversineDistance lat1 lon1 lat2 lon2 earthRadius) ∧
    (∀ (ps : List (Option Point)) (centerLon centerLat radius : ℝ)
        (options : Option GeoOptions), radius < 0 →
        findPointsInCircle (some ps) centerLon centerLat radius options = []) :=
  ⟨fun lat1 lon1 lat2 lon2 earthRadius hR =>
      haversineDistance_nonneg lat1 lon1 lat2 lon2 earthRadius hR,
   fun ps centerLon centerLat radius options h =>
      findPointsInCircle_neg_radius_aux ps centerLon centerLat radius options h⟩

/-- Witness for C10 at concrete inputs. -/
theorem c10_negative_radius_witness :
    0 ≤ haversineDistance 0 0 1 1 6371000 ∧
    findPointsInCircle (some [some ⟨0, 0⟩]) 0 0 (-1) none = [] :=
  ⟨c10_negative_radius_empty.1 0 0 1 1 6371000 (by norm_num),
   c10_negative_radius_empty.2 [some ⟨0, 0⟩] 0 0 (-1) none (by norm_num)⟩

end GeoUtils
